import Mathlib

/-!
Verification of the WindSight repository's specification against a shallow
embedding of its two scripts:

* `src/fetch_taoyuan_weather.py` — weather-snapshot pipeline: snapshot-time
  resolver, HTTP fetch (modelled as an environment), station filter, result
  envelope builder, top-level exception handling.
* `src/convert_taoyuan.py` — boundary-extraction pipeline: record filter on
  `COUNTYNAME` and GeoJSON assembler.

Python `datetime` values are embedded as a structure of `Nat` fields; the
calendar arithmetic (`toordinal`, leap years, days-in-month) mirrors
CPython's `datetime` module.  Python dicts whose keys matter to the code are
embedded as association lists with first-match lookup (the dicts involved
have distinct keys), `dict.get` as a total `Option`-valued lookup, and
`dict[k]` as an `Except`-valued lookup whose `error` case is the `KeyError`.
-/

namespace WindSight

/-- Embedding of a Python `datetime.datetime` value (naive local time). -/
structure PyDateTime where
  year : Nat
  month : Nat
  day : Nat
  hour : Nat
  minute : Nat
  second : Nat
  microsecond : Nat
  deriving Repr, DecidableEq

/-- CPython `datetime._is_leap`: `year % 4 == 0 and (year % 100 != 0 or year % 400 == 0)`. -/
def isLeap (year : Nat) : Bool :=
  year % 4 == 0 && (year % 100 != 0 || year % 400 == 0)

/-- CPython `datetime._days_in_month` (table `_DAYS_IN_MONTH` plus the
February leap-year adjustment). -/
def daysInMonth (year month : Nat) : Nat :=
  match month with
  | 1 => 31
  | 2 => if isLeap year then 29 else 28
  | 3 => 31
  | 4 => 30
  | 5 => 31
  | 6 => 30
  | 7 => 31
  | 8 => 31
  | 9 => 30
  | 10 => 31
  | 11 => 30
  | 12 => 31
  | _ => 0

/-- CPython `datetime._days_before_month`: days in `year` preceding the first
of `month` (cumulative table `_DAYS_BEFORE_MONTH` plus leap adjustment for
months after February). -/
def daysBeforeMonth (year month : Nat) : Nat :=
  (match month with
   | 1 => 0
   | 2 => 31
   | 3 => 59
   | 4 => 90
   | 5 => 120
   | 6 => 151
   | 7 => 181
   | 8 => 212
   | 9 => 243
   | 10 => 273
   | 11 => 304
   | 12 => 334
   | _ => 0)
  + (if 2 < month ∧ isLeap year then 1 else 0)

/-- CPython `datetime._days_before_year`:
`(y-1)*365 + (y-1)//4 - (y-1)//100 + (y-1)//400`. -/
def daysBeforeYear (year : Nat) : Nat :=
  (year - 1) * 365 + (year - 1) / 4 - (year - 1) / 100 + (year - 1) / 400

/-- CPython `datetime._ymd2ord` (`date.toordinal`): proleptic Gregorian
ordinal, day 1 = January 1 of year 1. -/
def ymd2ord (year month day : Nat) : Nat :=
  daysBeforeYear year + daysBeforeMonth year month + day

/-- Total microseconds of a datetime measured from 0001-01-01 00:00:00;
this is the linear value CPython's datetime arithmetic and comparisons
factor through (`toordinal` plus the time-of-day fields). -/
def toAbsMicro (d : PyDateTime) : Nat :=
  (ymd2ord d.year d.month d.day - 1) * 86400000000
    + d.hour * 3600000000 + d.minute * 60000000
    + d.second * 1000000 + d.microsecond

/-- The invariants CPython enforces on every constructed `datetime`
(MINYEAR/MAXYEAR, month, day-in-month, and time-of-day field ranges). -/
def ValidDateTime (d : PyDateTime) : Prop :=
  1 ≤ d.year ∧ d.year ≤ 9999 ∧ 1 ≤ d.month ∧ d.month ≤ 12 ∧
  1 ≤ d.day ∧ d.day ≤ daysInMonth d.year d.month ∧
  d.hour ≤ 23 ∧ d.minute ≤ 59 ∧ d.second ≤ 59 ∧ d.microsecond ≤ 999999

instance (d : PyDateTime) : Decidable (ValidDateTime d) := by
  unfold ValidDateTime; infer_instance

/-- Python `d - timedelta(minutes=10)` specialised to the datetimes the
resolver feeds it (minute a multiple of 10, second = microsecond = 0):
subtract ten minutes with the usual borrow chain through hour, day, month
and year, exactly as CPython's normalized date arithmetic behaves on this
input.  `toAbsMicro_subTimedelta10` below proves it shifts the linear
time value by exactly ten minutes. -/
def subTimedelta10 (d : PyDateTime) : PyDateTime :=
  if 10 ≤ d.minute then
    { d with minute := d.minute - 10 }
  else if 1 ≤ d.hour then
    { d with hour := d.hour - 1, minute := d.minute + 50 }
  else if 2 ≤ d.day then
    { d with day := d.day - 1, hour := 23, minute := d.minute + 50 }
  else if 2 ≤ d.month then
    { d with month := d.month - 1, day := daysInMonth d.year (d.month - 1),
             hour := 23, minute := d.minute + 50 }
  else
    { d with year := d.year - 1, month := 12, day := 31,
             hour := 23, minute := d.minute + 50 }

/-- Source lines `minute = (now.minute // 10) * 10` and
`now.replace(minute=minute, second=0, microsecond=0)` of
`fetch_taoyuan_weather.py`: round the minute down to a multiple of 10 and
zero the sub-minute fields. -/
def replaceTruncated (now : PyDateTime) : PyDateTime :=
  { now with minute := now.minute / 10 * 10, second := 0, microsecond := 0 }

/-- Source line
`target_time = now.replace(minute=minute, second=0, microsecond=0) - timedelta(minutes=10)`
of `fetch_taoyuan_weather.py`. -/
def target_time (now : PyDateTime) : PyDateTime :=
  subTimedelta10 (replaceTruncated now)

/-- Decimal digit character. -/
def digitChar (n : Nat) : Char :=
  Char.ofNat (48 + n % 10)

/-- Two-digit zero-padded decimal rendering (strftime `%m`, `%d`, `%H`,
`%M`, `%S` on their valid ranges). -/
def pad2 (n : Nat) : String :=
  String.mk [digitChar (n / 10), digitChar n]

/-- Four-digit zero-padded decimal rendering (strftime `%Y` on the valid
year range 1..9999). -/
def pad4 (n : Nat) : String :=
  String.mk [digitChar (n / 1000), digitChar (n / 100), digitChar (n / 10), digitChar n]

/-- Python `d.strftime('%Y-%m-%d %H:%M:%S')`. -/
def strftimeYmdHMS (d : PyDateTime) : String :=
  pad4 d.year ++ "-" ++ pad2 d.month ++ "-" ++ pad2 d.day ++ " "
    ++ pad2 d.hour ++ ":" ++ pad2 d.minute ++ ":" ++ pad2 d.second

/-- Python `d.strftime('%Y-%m-%d %H:%M')` (used for `updated_at`). -/
def strftimeYmdHM (d : PyDateTime) : String :=
  pad4 d.year ++ "-" ++ pad2 d.month ++ "-" ++ pad2 d.day ++ " "
    ++ pad2 d.hour ++ ":" ++ pad2 d.minute

/-- Source line `current_time_str = target_time.strftime('%Y-%m-%d %H:%M:%S')`. -/
def current_time_str (now : PyDateTime) : String :=
  strftimeYmdHMS (target_time now)

end WindSight

namespace WindSight

/-- Days before the first of month `m` plus the length of month `m - 1`
equal the days before the first of month `m - 1`'s successor: the calendar
tables are consistent. -/
theorem daysBeforeMonth_add_daysInMonth (y m : Nat) (h2 : 2 ≤ m) (h12 : m ≤ 12) :
    daysBeforeMonth y (m - 1) + daysInMonth y (m - 1) = daysBeforeMonth y m := by
  interval_cases m <;>
    simp [daysBeforeMonth, daysInMonth] <;>
    by_cases h : isLeap y <;> simp [h]

/-- Arithmetic characterisation of `isLeap`. -/
theorem isLeap_iff (n : Nat) : isLeap n = true ↔ n % 4 = 0 ∧ (n % 100 ≠ 0 ∨ n % 400 = 0) := by
  simp [isLeap]

set_option maxHeartbeats 1000000 in
/-- Successive years differ by 365 days plus one exactly in leap years. -/
theorem daysBeforeYear_succ (n : Nat) (h : 1 ≤ n) :
    daysBeforeYear n + 365 + (if isLeap n then 1 else 0) = daysBeforeYear (n + 1) := by
  by_cases hl : isLeap n
  · rw [if_pos hl]
    rw [isLeap_iff] at hl
    unfold daysBeforeYear
    omega
  · rw [if_neg hl]
    rw [isLeap_iff] at hl
    push_neg at hl
    unfold daysBeforeYear
    omega

/-- Any year from 2 on lies at least a full year after the epoch. -/
theorem daysBeforeYear_ge (y : Nat) (h : 2 ≤ y) : 365 ≤ daysBeforeYear y := by
  have h1 : (y - 1) / 100 ≤ (y - 1) / 4 := Nat.div_le_div_left (by norm_num) (by norm_num)
  unfold daysBeforeYear
  omega

/-- Subtracting the ten-minute timedelta keeps the minute a multiple of 10. -/
theorem subTimedelta10_minute_mod (d : PyDateTime) (hm : d.minute % 10 = 0) :
    (subTimedelta10 d).minute % 10 = 0 := by
  unfold subTimedelta10
  split <;> [skip; split <;> [skip; split <;> [skip; split]]] <;> dsimp <;> omega

end WindSight

namespace WindSight

set_option maxHeartbeats 1000000 in
/-- CPython's `datetime` subtraction of `timedelta(minutes=10)` shifts the
linear microsecond value by exactly ten minutes (600 000 000 µs); this is
the correctness of the borrow chain in `subTimedelta10` against the
calendar tables. -/
theorem toAbsMicro_subTimedelta10 (d : PyDateTime) (hv : ValidDateTime d)
    (hy : 2 ≤ d.year) :
    toAbsMicro (subTimedelta10 d) + 600000000 = toAbsMicro d := by
  obtain ⟨h1, h2, h3, h4, h5, h6, h7, h8, h9, h10⟩ := hv
  have hge := daysBeforeYear_ge d.year hy
  unfold subTimedelta10
  split
  · unfold toAbsMicro ymd2ord
    dsimp only
    omega
  · split
    · unfold toAbsMicro ymd2ord
      dsimp only
      omega
    · split
      · unfold toAbsMicro ymd2ord
        dsimp only
        omega
      · split
        · rename_i hc1 hc2 hc3 hc4
          have hdm := daysBeforeMonth_add_daysInMonth d.year d.month (by omega) h4
          unfold toAbsMicro ymd2ord
          dsimp only
          omega
        · rename_i hc1 hc2 hc3 hc4
          have hmonth : d.month = 1 := by omega
          have hsucc := daysBeforeYear_succ (d.year - 1) (by omega)
          rw [Nat.sub_add_cancel (by omega)] at hsucc
          have hL : daysBeforeMonth (d.year - 1) 12
              = 334 + (if isLeap (d.year - 1) then 1 else 0) := by
            simp [daysBeforeMonth]
          have h0 : daysBeforeMonth d.year 1 = 0 := by
            simp [daysBeforeMonth]
          unfold toAbsMicro ymd2ord
          dsimp only
          rw [hmonth]
          omega

/-- Truncation keeps the datetime valid. -/
theorem replaceTruncated_valid (d : PyDateTime) (hv : ValidDateTime d) :
    ValidDateTime (replaceTruncated d) := by
  obtain ⟨h1, h2, h3, h4, h5, h6, h7, h8, h9, h10⟩ := hv
  unfold ValidDateTime replaceTruncated
  refine ⟨?_, ?_, ?_, ?_, ?_, ?_, ?_, ?_, ?_, ?_⟩ <;> dsimp only <;> omega

/-- Truncation removes exactly the sub-ten-minute part of the linear value. -/
theorem toAbsMicro_replaceTruncated (d : PyDateTime) :
    toAbsMicro (replaceTruncated d)
      + (d.minute % 10 * 60000000 + d.second * 1000000 + d.microsecond)
      = toAbsMicro d := by
  unfold toAbsMicro ymd2ord replaceTruncated
  dsimp only
  omega

end WindSight

namespace WindSight

/-- C1: for every current wall-clock time `T` (a valid datetime in year 2 or
later, so that CPython's ten-minute subtraction cannot underflow the
calendar), the snapshot-time resolver's output is strictly earlier than `T`,
the difference `T` minus the output is at least 10 and at most 20 minutes
(600 000 000 to 1 200 000 000 µs), and the output's minute component is a
multiple of 10. -/
theorem resolver_output_bounds (T : PyDateTime) (hv : ValidDateTime T) (hy : 2 ≤ T.year) :
    toAbsMicro (target_time T) < toAbsMicro T ∧
    600000000 ≤ toAbsMicro T - toAbsMicro (target_time T) ∧
    toAbsMicro T - toAbsMicro (target_time T) ≤ 1200000000 ∧
    (target_time T).minute % 10 = 0 := by
  obtain ⟨h1, h2, h3, h4, h5, h6, h7, h8, h9, h10⟩ := hv
  have hvτ : ValidDateTime (replaceTruncated T) :=
    replaceTruncated_valid T ⟨h1, h2, h3, h4, h5, h6, h7, h8, h9, h10⟩
  have hyτ : 2 ≤ (replaceTruncated T).year := hy
  have hsub := toAbsMicro_subTimedelta10 (replaceTruncated T) hvτ hyτ
  have htr := toAbsMicro_replaceTruncated T
  have hmodτ : (replaceTruncated T).minute % 10 = 0 := by
    unfold replaceTruncated
    dsimp only
    omega
  have hmin := subTimedelta10_minute_mod (replaceTruncated T) hmodτ
  unfold target_time
  refine ⟨?_, ?_, ?_, hmin⟩ <;> omega

/-- Witness for `resolver_output_bounds` at the concrete current time
2024-01-01 10:37:23.000500. -/
theorem resolver_output_bounds_witness :
    ValidDateTime ⟨2024, 1, 1, 10, 37, 23, 500⟩ ∧
    2 ≤ (PyDateTime.mk 2024 1 1 10 37 23 500).year ∧
    (toAbsMicro (target_time ⟨2024, 1, 1, 10, 37, 23, 500⟩)
        < toAbsMicro ⟨2024, 1, 1, 10, 37, 23, 500⟩ ∧
      600000000 ≤ toAbsMicro ⟨2024, 1, 1, 10, 37, 23, 500⟩
        - toAbsMicro (target_time ⟨2024, 1, 1, 10, 37, 23, 500⟩) ∧
      toAbsMicro ⟨2024, 1, 1, 10, 37, 23, 500⟩
        - toAbsMicro (target_time ⟨2024, 1, 1, 10, 37, 23, 500⟩) ≤ 1200000000 ∧
      (target_time ⟨2024, 1, 1, 10, 37, 23, 500⟩).minute % 10 = 0) :=
  ⟨by decide, by decide,
    resolver_output_bounds ⟨2024, 1, 1, 10, 37, 23, 500⟩ (by decide) (by decide)⟩

/-- C3: the resolver truncates the current time's minute to a multiple of
10, zeroes seconds and microseconds, subtracts ten minutes, and formats the
result as `YYYY-MM-DD HH:MM:SS`; on the spec's scenario input
2024-01-01 10:37:00 it yields `"2024-01-01 10:20:00"`. -/
theorem resolver_scenario :
    current_time_str ⟨2024, 1, 1, 10, 37, 0, 0⟩ = "2024-01-01 10:20:00" ∧
    (∀ now : PyDateTime,
      current_time_str now
        = strftimeYmdHMS (subTimedelta10 (replaceTruncated now)) ∧
      (replaceTruncated now).minute = now.minute / 10 * 10 ∧
      (replaceTruncated now).second = 0 ∧
      (replaceTruncated now).microsecond = 0) := by
  refine ⟨by decide, fun now => ⟨rfl, rfl, rfl, rfl⟩⟩

end WindSight

namespace WindSight

/-- A station reading (or property mapping): a Python dict from field-name
strings to values.  Only string-valued fields take part in the filters, so
values are embedded as strings. -/
abbrev StationDict := List (String × String)

/-- Python `dict.get(key)`: total lookup returning `None` when the key is
absent.  The embedded dicts have distinct keys, so first-match lookup
coincides with Python dict lookup. -/
def dict_get (d : StationDict) (k : String) : Option String :=
  match d with
  | [] => none
  | (key, v) :: rest => if key = k then some v else dict_get rest k

/-- Python `dict[key]`: lookup that raises `KeyError` when the key is
absent, embedded as an `Except` whose error case carries the `KeyError`. -/
def dict_getitem (d : StationDict) (k : String) : Except String String :=
  match dict_get d k with
  | some v => Except.ok v
  | none => Except.error ("KeyError: " ++ k)

/-- Source lines 73–76 of `fetch_taoyuan_weather.py`: the station filter
`[station for station in all_stations if station.get('縣市') == '桃園市']`. -/
def taoyuan_stations (all_stations : List StationDict) : List StationDict :=
  all_stations.filter (fun station => dict_get station "縣市" == some "桃園市")

end WindSight

namespace WindSight

/-- C2: the station filter's output is an order-preserving subsequence of
the input containing exactly the records whose `縣市` field equals
`"桃園市"` and no others; on the spec's scenario input it returns the first
and third records. -/
theorem station_filter_exact_subsequence :
    (∀ l : List StationDict, (taoyuan_stations l).Sublist l) ∧
    (∀ (l : List StationDict) (s : StationDict),
      s ∈ taoyuan_stations l ↔ s ∈ l ∧ dict_get s "縣市" = some "桃園市") ∧
    taoyuan_stations
        [[("縣市", "桃園市"), ("站號", "A")],
         [("縣市", "台北市"), ("站號", "B")],
         [("縣市", "桃園市"), ("站號", "C")]]
      = [[("縣市", "桃園市"), ("站號", "A")], [("縣市", "桃園市"), ("站號", "C")]] := by
  refine ⟨fun l => List.filter_sublist l, fun l s => ?_, by decide⟩
  simp [taoyuan_stations, List.mem_filter]

/-- C7: the station filter is a pure function and is idempotent: applying
it to its own output returns that output unchanged, and two applications to
the same input agree. -/
theorem station_filter_idempotent (l : List StationDict) :
    taoyuan_stations (taoyuan_stations l) = taoyuan_stations l ∧
    taoyuan_stations l = taoyuan_stations l := by
  refine ⟨?_, rfl⟩
  simp [taoyuan_stations, List.filter_filter]

/-- C9: a station reading with no `縣市` key never raises — `dict.get` is
total, returning `none` — and such a reading is silently excluded from the
filter's output. -/
theorem station_filter_missing_key_excluded (l : List StationDict) (s : StationDict)
    (h : dict_get s "縣市" = none) : s ∉ taoyuan_stations l := by
  intro hmem
  have := (List.mem_filter.mp hmem).2
  simp [h] at this

/-- Witness for `station_filter_missing_key_excluded`: the record
`{站號: "B"}` has no `縣市` key and is dropped even when present in the
input. -/
theorem station_filter_missing_key_excluded_witness :
    dict_get [("站號", "B")] "縣市" = none ∧
    [("站號", "B")] ∉ taoyuan_stations [[("站號", "B")]] :=
  ⟨by decide,
    station_filter_missing_key_excluded [[("站號", "B")]] [("站號", "B")] (by decide)⟩

end WindSight

namespace WindSight

/-- One record of the shapefile reader's `iterShapeRecords()`: the attribute
values (zipped against the module-level `fields` list to build `props`) and
the shape's `__geo_interface__` GeoJSON representation, which the script
passes through opaquely (embedded as an abstract string). -/
structure ShapeRecord where
  record : List String
  geo_interface : String
  deriving Repr, DecidableEq

/-- A GeoJSON feature as built by `convert_taoyuan.py`:
`{"type": "Feature", "properties": props, "geometry": geom}`. -/
structure Feature where
  type : String
  properties : StationDict
  geometry : String
  deriving Repr, DecidableEq

/-- A GeoJSON feature collection. -/
structure FeatureCollection where
  type : String
  features : List Feature
  deriving Repr, DecidableEq

/-- Source line `props = dict(zip(fields, rec))` of `convert_taoyuan.py`
(shapefile field names are distinct, so the zip has distinct keys). -/
def props (fields : List String) (rec : List String) : StationDict :=
  fields.zip rec

/-- The `for shapeRecord in sf.iterShapeRecords()` loop of
`convert_taoyuan.py`: build `props`, index it with `props['COUNTYNAME']`
(a raising lookup), and on equality with `'桃園市'` append the feature.  A
`KeyError` anywhere aborts the loop, so the whole traversal is
`Except`-valued. -/
def buildFeatures (fields : List String) : List ShapeRecord → Except String (List Feature)
  | [] => Except.ok []
  | sr :: rest => do
      let ps := props fields sr.record
      let countyname ← dict_getitem ps "COUNTYNAME"
      let fs ← buildFeatures fields rest
      if countyname = "桃園市" then
        Except.ok ({ type := "Feature", properties := ps, geometry := sr.geo_interface } :: fs)
      else
        Except.ok fs

/-- Source lines 28–31 of `convert_taoyuan.py`:
`geojson = {"type": "FeatureCollection", "features": features}`. -/
def geojson (features : List Feature) : FeatureCollection :=
  { type := "FeatureCollection", features := features }

/-- C6: the GeoJSON assembler outputs exactly
`{type: "FeatureCollection", features: <input sequence>}`, leaving the
feature sequence unchanged and in order, with no validation or modification
of geometries or properties. -/
theorem geojson_pure_structural_wrap (features : List Feature) :
    (geojson features).type = "FeatureCollection" ∧
    (geojson features).features = features :=
  ⟨rfl, rfl⟩

/-- C8: in the boundary pipeline a record whose property mapping lacks the
`COUNTYNAME` key makes the direct indexing `props['COUNTYNAME']` raise
`KeyError`, aborting the traversal with an error rather than treating the
record as a non-match. -/
theorem record_filter_missing_countyname (fields : List String)
    (sr : ShapeRecord) (rest : List ShapeRecord)
    (h : dict_get (props fields sr.record) "COUNTYNAME" = none) :
    buildFeatures fields (sr :: rest) = Except.error ("KeyError: " ++ "COUNTYNAME") := by
  unfold buildFeatures dict_getitem
  dsimp only
  rw [h]
  rfl

/-- Witness for `record_filter_missing_countyname`: a record whose only
field is `TOWNNAME`. -/
theorem record_filter_missing_countyname_witness :
    dict_get (props ["TOWNNAME"] ["中壢區"]) "COUNTYNAME" = none ∧
    buildFeatures ["TOWNNAME"] [⟨["中壢區"], "geom"⟩]
      = Except.error ("KeyError: " ++ "COUNTYNAME") :=
  ⟨by decide,
    record_filter_missing_countyname ["TOWNNAME"] ⟨["中壢區"], "geom"⟩ [] (by decide)⟩

end WindSight

namespace WindSight

/-- The fixed endpoint URL of `fetch_taoyuan_weather.py`. -/
def url : String :=
  "https://qpeplus.cwa.gov.tw/pub/rainmonitor/get_tag_sectiondisplay_by_tag/"

/-- Source dict `payload_data` of `fetch_taoyuan_weather.py`: the
form-encoded request body, with `data_time` taken from the resolver. -/
def payload_data (now : PyDateTime) : StationDict :=
  [("tag_id", "14"),
   ("data_time", current_time_str now),
   ("group", "Guest"),
   ("lang", "tw")]

/-- Python `str()` of an `Optional[str]` as rendered inside an f-string:
`None` prints as `"None"`. -/
def pyStrOpt : Option String → String
  | none => "None"
  | some s => s

/-- The decoded JSON response, embedded for the keys the script reads with
`result.get(...)`: `status`, `failed_code` and `data` (each `none` when the
key is absent). -/
structure ApiResult where
  status : Option String
  failed_code : Option String
  data : Option (List StationDict)

/-- The HTTP response object: `raise_for_status()` either raises (carrying
the exception text) or returns, and `response.json()` either raises or
yields the decoded `ApiResult`. -/
structure HttpResponse where
  statusExc : Option String
  jsonResult : Except String ApiResult

/-- Outcome of the external call `requests.post(...)`: an exception during
the network/session phase, or a response object. -/
structure FetchEnv where
  postResult : Except String HttpResponse

/-- The output envelope written to `taoyuan_realtime_weather.json`:
`{"updated_at": ..., "data": taoyuan_stations}`. -/
structure OutputData where
  updated_at : String
  data : List StationDict

/-- Observable result of one run of `fetch_and_filter_taoyuan`: console
lines in order, the file content written (`none` when no file is written),
and the exception caught by the top-level handler, if any. -/
structure RunResult where
  log : List String
  fileWritten : Option OutputData
  caught : Option String

/-- The f-string
`f"{s.get('站名')} ({s.get('站號')}): {s.get('溫度(°C)')}°C, 雨量: {s.get('當日累積雨量(mm)')}mm"`
printed for each of the first five filtered stations. -/
def sampleLine (s : StationDict) : String :=
  pyStrOpt (dict_get s "站名") ++ " (" ++ pyStrOpt (dict_get s "站號") ++ "): "
    ++ pyStrOpt (dict_get s "溫度(°C)") ++ "°C, 雨量: "
    ++ pyStrOpt (dict_get s "當日累積雨量(mm)") ++ "mm"

/-- Function `fetch_and_filter_taoyuan()` of `fetch_taoyuan_weather.py`.
The external effects are supplied by `env`; `nowAtWrite` is the
`datetime.now()` reading made while building `output_data`.  The `try`
block covers everything from the POST to the file write, and the file is
written only as the last step of the fully successful path, after all
fallible operations. -/
def fetch_and_filter_taoyuan (env : FetchEnv) (nowAtWrite : PyDateTime) : RunResult :=
  let fetchingMsg := "Fetching data from " ++ url ++ "..."
  match env.postResult with
  | Except.error e =>
      ⟨[fetchingMsg, "Error occurred: " ++ e], none, some e⟩
  | Except.ok response =>
    match response.statusExc with
    | some e =>
        ⟨[fetchingMsg, "Error occurred: " ++ e], none, some e⟩
    | none =>
      match response.jsonResult with
      | Except.error e =>
          ⟨[fetchingMsg, "Error occurred: " ++ e], none, some e⟩
      | Except.ok result =>
        if result.status ≠ some "success" then
          ⟨[fetchingMsg, "API returned error: " ++ pyStrOpt result.failed_code],
           none, none⟩
        else
          let all_stations := result.data.getD []
          let tstations := taoyuan_stations all_stations
          let output_data : OutputData := ⟨strftimeYmdHM nowAtWrite, tstations⟩
          ⟨[fetchingMsg,
            "Total stations retrieved: " ++ toString all_stations.length,
            "Found " ++ toString tstations.length ++ " stations in Taoyuan City."]
            ++ (tstations.take 5).map sampleLine
            ++ ["Saved filtered data to taoyuan_realtime_weather.json"],
           some output_data, none⟩

end WindSight

namespace WindSight

/-- C4: whenever the network call, the HTTP status check, or the JSON
decoding raises, the top-level handler catches the exception, logs it, and
the run ends with no output file written (and hence no partial or corrupt
file: the write is the final step of the success path only). -/
theorem no_output_on_exception (env : FetchEnv) (nowAtWrite : PyDateTime) (e : String)
    (h : env.postResult = Except.error e ∨
         (∃ r, env.postResult = Except.ok r ∧ r.statusExc = some e) ∨
         (∃ r, env.postResult = Except.ok r ∧ r.statusExc = none ∧
               r.jsonResult = Except.error e)) :
    (fetch_and_filter_taoyuan env nowAtWrite).fileWritten = none ∧
    (fetch_and_filter_taoyuan env nowAtWrite).caught = some e ∧
    ("Error occurred: " ++ e) ∈ (fetch_and_filter_taoyuan env nowAtWrite).log := by
  unfold fetch_and_filter_taoyuan
  rcases h with h | ⟨r, hr, hs⟩ | ⟨r, hr, hs, hj⟩
  · rw [h]
    exact ⟨rfl, rfl, by simp⟩
  · rw [hr]
    dsimp only
    rw [hs]
    exact ⟨rfl, rfl, by simp⟩
  · rw [hr]
    dsimp only
    rw [hs]
    dsimp only
    rw [hj]
    exact ⟨rfl, rfl, by simp⟩

/-- Witness for `no_output_on_exception`: a run whose POST raises
`"Connection refused"`. -/
theorem no_output_on_exception_witness :
    ((FetchEnv.mk (Except.error "Connection refused")).postResult
        = Except.error "Connection refused" ∨
      (∃ r, (FetchEnv.mk (Except.error "Connection refused")).postResult
          = Except.ok r ∧ r.statusExc = some "Connection refused") ∨
      (∃ r, (FetchEnv.mk (Except.error "Connection refused")).postResult
          = Except.ok r ∧ r.statusExc = none ∧
            r.jsonResult = Except.error "Connection refused")) ∧
    (fetch_and_filter_taoyuan ⟨Except.error "Connection refused"⟩
        ⟨2026, 10, 12, 14, 0, 0, 0⟩).fileWritten = none ∧
    (fetch_and_filter_taoyuan ⟨Except.error "Connection refused"⟩
        ⟨2026, 10, 12, 14, 0, 0, 0⟩).caught = some "Connection refused" ∧
    ("Error occurred: " ++ "Connection refused")
      ∈ (fetch_and_filter_taoyuan ⟨Except.error "Connection refused"⟩
          ⟨2026, 10, 12, 14, 0, 0, 0⟩).log :=
  ⟨Or.inl rfl,
    no_output_on_exception ⟨Except.error "Connection refused"⟩
      ⟨2026, 10, 12, 14, 0, 0, 0⟩ "Connection refused" (Or.inl rfl)⟩

/-- C5: a decoded response whose `status` field is not `"success"` is a
soft failure: the run logs `API returned error: <failed_code>`, writes no
output file, and raises no exception (the top-level handler catches
nothing). -/
theorem soft_failure_no_output (env : FetchEnv) (nowAtWrite : PyDateTime)
    (r : HttpResponse) (result : ApiResult)
    (hr : env.postResult = Except.ok r) (hs : r.statusExc = none)
    (hj : r.jsonResult = Except.ok result) (hst : result.status ≠ some "success") :
    (fetch_and_filter_taoyuan env nowAtWrite).fileWritten = none ∧
    (fetch_and_filter_taoyuan env nowAtWrite).caught = none ∧
    ("API returned error: " ++ pyStrOpt result.failed_code)
      ∈ (fetch_and_filter_taoyuan env nowAtWrite).log := by
  unfold fetch_and_filter_taoyuan
  rw [hr]
  dsimp only
  rw [hs]
  dsimp only
  rw [hj]
  dsimp only
  rw [if_pos hst]
  exact ⟨rfl, rfl, by simp⟩

/-- Witness for `soft_failure_no_output`: the spec's scenario response
`{"status": "error", "failed_code": "X"}`; the logged diagnostic
`"API returned error: X"` contains `"X"`. -/
theorem soft_failure_no_output_witness :
    (FetchEnv.mk (Except.ok ⟨none, Except.ok ⟨some "error", some "X", none⟩⟩)).postResult
        = Except.ok ⟨none, Except.ok ⟨some "error", some "X", none⟩⟩ ∧
    (HttpResponse.statusExc ⟨none, Except.ok ⟨some "error", some "X", none⟩⟩) = none ∧
    (HttpResponse.jsonResult ⟨none, Except.ok ⟨some "error", some "X", none⟩⟩)
        = Except.ok ⟨some "error", some "X", none⟩ ∧
    (ApiResult.status ⟨some "error", some "X", none⟩) ≠ some "success" ∧
    (fetch_and_filter_taoyuan ⟨Except.ok ⟨none, Except.ok ⟨some "error", some "X", none⟩⟩⟩
        ⟨2026, 10, 12, 14, 0, 0, 0⟩).fileWritten = none ∧
    (fetch_and_filter_taoyuan ⟨Except.ok ⟨none, Except.ok ⟨some "error", some "X", none⟩⟩⟩
        ⟨2026, 10, 12, 14, 0, 0, 0⟩).caught = none ∧
    "API returned error: X"
      ∈ (fetch_and_filter_taoyuan ⟨Except.ok ⟨none, Except.ok ⟨some "error", some "X", none⟩⟩⟩
          ⟨2026, 10, 12, 14, 0, 0, 0⟩).log :=
  ⟨rfl, rfl, rfl, by decide,
    soft_failure_no_output ⟨Except.ok ⟨none, Except.ok ⟨some "error", some "X", none⟩⟩⟩
      ⟨2026, 10, 12, 14, 0, 0, 0⟩ ⟨none, Except.ok ⟨some "error", some "X", none⟩⟩
      ⟨some "error", some "X", none⟩ rfl rfl rfl (by decide)⟩

/-- C10: on the successful path the envelope's `updated_at` comes from the
fresh `datetime.now()` reading made at write time and is formatted
`YYYY-MM-DD HH:MM` (16 characters, no seconds), while the request's
`data_time` is the resolver's 19-character `YYYY-MM-DD HH:MM:SS` string —
two different formats, so the two strings are never equal. -/
theorem updated_at_write_time_format (env : FetchEnv) (nowAtWrite : PyDateTime)
    (r : HttpResponse) (result : ApiResult)
    (hr : env.postResult = Except.ok r) (hs : r.statusExc = none)
    (hj : r.jsonResult = Except.ok result) (hst : result.status = some "success") :
    (fetch_and_filter_taoyuan env nowAtWrite).fileWritten
      = some ⟨strftimeYmdHM nowAtWrite, taoyuan_stations (result.data.getD [])⟩ ∧
    (strftimeYmdHM nowAtWrite).length = 16 ∧
    (∀ now0 : PyDateTime,
      dict_get (payload_data now0) "data_time" = some (current_time_str now0) ∧
      (current_time_str now0).length = 19) ∧
    (∀ d e : PyDateTime, strftimeYmdHM d ≠ strftimeYmdHMS e) := by
  have hlen16 : ∀ d : PyDateTime, (strftimeYmdHM d).length = 16 := by
    intro d
    simp [strftimeYmdHM, pad4, pad2, String.length_append]
    decide
  have hlen19 : ∀ d : PyDateTime, (strftimeYmdHMS d).length = 19 := by
    intro d
    simp [strftimeYmdHMS, pad4, pad2, String.length_append]
    decide
  refine ⟨?_, hlen16 nowAtWrite, fun now0 => ⟨?_, hlen19 (target_time now0)⟩,
    fun d e heq => ?_⟩
  · unfold fetch_and_filter_taoyuan
    rw [hr]
    dsimp only
    rw [hs]
    dsimp only
    rw [hj]
    dsimp only
    rw [if_neg (by simp [hst])]
  · simp [payload_data, dict_get, current_time_str]
  · have h1 := hlen16 d
    have h2 := hlen19 e
    rw [heq] at h1
    omega

/-- Witness for `updated_at_write_time_format`: a successful response with
one Taoyuan station, written at 2026-10-12 14:03. -/
theorem updated_at_write_time_format_witness :
    (FetchEnv.mk (Except.ok ⟨none,
        Except.ok ⟨some "success", none, some [[("縣市", "桃園市"), ("站號", "A")]]⟩⟩)).postResult
      = Except.ok ⟨none,
          Except.ok ⟨some "success", none, some [[("縣市", "桃園市"), ("站號", "A")]]⟩⟩ ∧
    (ApiResult.status ⟨some "success", none, some [[("縣市", "桃園市"), ("站號", "A")]]⟩)
      = some "success" ∧
    (fetch_and_filter_taoyuan
        ⟨Except.ok ⟨none,
          Except.ok ⟨some "success", none, some [[("縣市", "桃園市"), ("站號", "A")]]⟩⟩⟩
        ⟨2026, 10, 12, 14, 3, 0, 0⟩).fileWritten
      = some ⟨strftimeYmdHM ⟨2026, 10, 12, 14, 3, 0, 0⟩,
          taoyuan_stations ((ApiResult.data
            ⟨some "success", none, some [[("縣市", "桃園市"), ("站號", "A")]]⟩).getD [])⟩ ∧
    (strftimeYmdHM ⟨2026, 10, 12, 14, 3, 0, 0⟩).length = 16 :=
  ⟨rfl, rfl,
    (updated_at_write_time_format
      ⟨Except.ok ⟨none,
        Except.ok ⟨some "success", none, some [[("縣市", "桃園市"), ("站號", "A")]]⟩⟩⟩
      ⟨2026, 10, 12, 14, 3, 0, 0⟩
      ⟨none, Except.ok ⟨some "success", none, some [[("縣市", "桃園市"), ("站號", "A")]]⟩⟩
      ⟨some "success", none, some [[("縣市", "桃園市"), ("站號", "A")]]⟩
      rfl rfl rfl rfl).1,
    (updated_at_write_time_format
      ⟨Except.ok ⟨none,
        Except.ok ⟨some "success", none, some [[("縣市", "桃園市"), ("站號", "A")]]⟩⟩⟩
      ⟨2026, 10, 12, 14, 3, 0, 0⟩
      ⟨none, Except.ok ⟨some "success", none, some [[("縣市", "桃園市"), ("站號", "A")]]⟩⟩
      ⟨some "success", none, some [[("縣市", "桃園市"), ("站號", "A")]]⟩
      rfl rfl rfl rfl).2.1⟩

end WindSight
